import Mathlib

/-!
Verification of the session orchestrator of the radio_mirchi backend
(`app/services/game_manager.py`), together with its connection registry
(`ConnectionManager`).  The Python code is shallowly embedded: every
suspension-free section of an `async` function (in this code every
`async with self._state_lock:` block contains no `await`, so each such
block, and more generally every stretch of code between two genuine
suspension points of the asyncio event loop, runs atomically) becomes
one Lean function or one constructor of a small-step transition
relation `Step`.  Interleavings of the main loop task, the TTS task,
the client-command handlers and the registry are the nondeterminism of
`Step`.
-/

/-- Modelled from the spec: the class `DialogueLine` is imported by
`game_manager.py` from `app.schemas.propaganda` but is absent from the
source tree; per Section 3 of the spec it is the record
`(speakerName, text)` — in the code the fields are accessed as
`dialogue_line.speaker_name` and `dialogue_line.line`. -/
structure DialogueLine where
  speaker_name : String
  line : String
deriving DecidableEq, Repr

/-- One appended piece of `GameSession.dialogue_history`.  The Python
code accumulates a single string by `+=`; we keep the list of appended
pieces, which determines the string (their concatenation).
`host sp ln` stands for the piece produced at
`self.dialogue_history += "\n" + speaker_name + ": " + line_text`
(line 172) and `user t` for the pieces
`self.dialogue_history += "\nUser: " + t` (lines 128 and 152). -/
inductive HistEntry where
  | host (speaker : String) (line : String)
  | user (text : String)
deriving DecidableEq, Repr

/-- `SessionState` enum of `game_manager.py` (lines 29-32). -/
inductive SessionState where
  | IDLE
  | SPEAKING_TTS
  | LISTENING_TO_USER
deriving DecidableEq, Repr

/-- An alive (created, not yet finished) task running
`GameSession._stream_tts_for_line` (lines 158-181).  `remaining` is the
number of chunks of the finite TTS byte stream not yet sent;
`cancelRequested` records that `task.cancel()` was called while the
task was alive, so that the `asyncio.CancelledError` will be raised at
the task's next suspension point and swallowed by its handler at line
176 (the task then finishes without appending to history). -/
structure TtsTask where
  line : DialogueLine
  remaining : Nat
  cancelRequested : Bool
deriving DecidableEq, Repr

/-- Program counter of the `_main_loop` coroutine (lines 183-230): the
genuine suspension points are `await asyncio.sleep(0.1)` (line 230,
also the initial position of a freshly created task),
`await asyncio.to_thread(generate_dialogue, ...)` (line 196) — entered
with `_state` already set to `SPEAKING_TTS` — and
`await self._tts_task` (line 220).  `finished` covers both a normal
return (the `while self._is_active` guard failing) and the coroutine
being killed by cancellation or by an exception escaping it. -/
inductive LoopPC where
  | notStarted
  | sleeping
  | generating
  | awaitingTts
  | finished
deriving DecidableEq, Repr

/-- Modelled from the spec: `Speaker` exists in
`app/schemas/propaganda.py` with fields name, gender, color and
description; only name and gender are read by the orchestrator. -/
structure Speaker where
  name : String
  gender : String
deriving DecidableEq, Repr

/-- The observable state of one `GameSession` (lines 34-58) at a
suspension point of the asyncio event loop, together with the
registration status of its connection.  `ttsTasks` is the list of
alive `_stream_tts_for_line` tasks (the code keeps a single reference
`self._tts_task`, which may also point at an already-finished task;
only alive tasks are listed here).  `transcriberActive` is
`self._live_transcriber._is_active` — the session owns exactly one
`LiveTranscription` instance, created in `__init__`.
`broadcastAlive` tracks the `_listener_broadcast_task`.  `connected`
says whether `mission_id` is a key of
`manager.active_connections`.  `awakenedListeners` stands for
`int(self._awakened_listeners)`, the truncated value of the float
accumulator as read by the broadcast loop (line 237). -/
structure Sess where
  state : SessionState
  queue : List DialogueLine
  history : List HistEntry
  ttsTasks : List TtsTask
  transcriberActive : Bool
  isActive : Bool
  loopPC : LoopPC
  broadcastAlive : Bool
  connected : Bool
  speakers : List Speaker
  missionContext : String
  proofSentences : List String
  initialListeners : Int
  awakenedListeners : Int
deriving DecidableEq, Repr

/-- `task.cancel()` on every alive TTS task (there is at most one). -/
def markCancelled (ts : List TtsTask) : List TtsTask :=
  ts.map fun t => { t with cancelRequested := true }

/-- `GameSession.start_user_speech` (lines 99-112): under the state
lock, cancel the TTS task if `_state == SPEAKING_TTS and
self._tts_task` (cancelling is a no-op on a finished task, hence the
guard is modelled as marking every alive task, which only exist while
`_state == SPEAKING_TTS` or after a lost race), set the state to
`LISTENING_TO_USER` and drain the dialogue queue; then
`await self._live_transcriber.start()` sets the transcriber active. -/
def startUserSpeech (s : Sess) : Sess :=
  { s with
    ttsTasks := if s.state = .SPEAKING_TTS then markCancelled s.ttsTasks else s.ttsTasks
    state := .LISTENING_TO_USER
    queue := []
    transcriberActive := true }

/-- `GameSession.stop_user_speech` (lines 114-133): early return when
the transcriber is not active; otherwise stop the transcriber, obtain
the final stripped transcript `t`, append it as a user turn when
non-empty, and set the state to `IDLE`. -/
def stopUserSpeech (s : Sess) (t : String) : Sess :=
  if s.transcriberActive = false then s
  else
    { s with
      transcriberActive := false
      history := if t = "" then s.history else s.history ++ [.user t]
      state := .IDLE }

/-- `GameSession.handle_user_dialogue` (lines 135-156): one atomic
lock section — cancel the TTS task if `_state == SPEAKING_TTS and
self._tts_task`, drain the queue, append the user's text to history,
set the state to `IDLE`.  The live transcriber is not touched. -/
def handleUserDialogue (s : Sess) (d : String) : Sess :=
  { s with
    ttsTasks := if s.state = .SPEAKING_TTS then markCancelled s.ttsTasks else s.ttsTasks
    queue := []
    history := s.history ++ [.user d]
    state := .IDLE }

/-- Net effect of `GameSession.stop` (lines 77-93) upon return:
`_is_active = False`; the main, TTS and listener-broadcast tasks are
cancelled and awaited (a TTS task cancelled there swallows the
`CancelledError` at line 176 and finishes without appending to
history; the main loop either exits its `while` guard or ends
cancelled); the transcriber is stopped.  Every exception escaping the
awaited tasks is a swallowed `asyncio.CancelledError`, so `stop`
returns normally — it is modelled as a total function. -/
def stopRun (s : Sess) : Sess :=
  { s with
    isActive := false
    ttsTasks := []
    loopPC := .finished
    broadcastAlive := false
    transcriberActive := false }

/-- The clamp computed by `GameSession._broadcast_listeners_loop`
(line 237): `max(0, min(self.initial_listeners,
int(self._awakened_listeners)))`. -/
def clampedListeners (s : Sess) : Int :=
  max 0 (min s.initialListeners s.awakenedListeners)

/-- The events observable at suspension points of one session: client
commands dispatched by the websocket endpoint
(`app/api/v1/endpoints/game.py`), segments of the `_main_loop` task,
segments of a `_stream_tts_for_line` task, the listener-broadcast
task's tick, a registry removal of the connection, and the external
`stop()`.  TTS labels carry the `DialogueLine` of the task,
`loopGenDone` carries the batch returned by `generate_dialogue`,
`stopSpeech` the stripped transcript the transcriber returns and
`broadcastTick` the clamped value sent to the client. -/
inductive Label where
  | startSpeech
  | stopSpeech (t : String)
  | userDialogue (d : String)
  | stopSession
  | disconnect
  | loopIdleWait
  | loopExit
  | loopStartGen
  | loopGenDone (batch : List DialogueLine)
  | loopGenFail
  | loopStartTts (l : DialogueLine) (total : Nat)
  | loopResume
  | ttsChunk (l : DialogueLine)
  | ttsComplete (l : DialogueLine)
  | ttsCancelled (l : DialogueLine)
  | ttsError (l : DialogueLine)
  | broadcastTick (v : Int)
deriving DecidableEq, Repr

/-- Small-step transition relation of one session.  Each constructor
is one atomic stretch of `game_manager.py` between suspension points:

* `startSpeech`, `stopSpeech`, `userDialogue`, `stopSession` — the
  four handlers, via the functions above;
* `disconnect` — `ConnectionManager.disconnect(mission_id)` (lines
  21-23), removing the registration;
* `loopIdleWait` — one iteration of `_main_loop` that observes
  `_state != IDLE` and only sleeps;
* `loopExit` — the `while self._is_active` guard fails, the coroutine
  returns;
* `loopStartGen` — lines 188-198: idle and queue empty, set
  `SPEAKING_TTS` and suspend in `generate_dialogue`;
* `loopGenDone batch` — lines 200-209 run atomically when the
  generation thread returns: enqueue every line of the batch and set
  the state (unconditionally) back to `IDLE`;
* `loopGenFail` — `generate_dialogue` raises `LLMServiceError`
  (`llm_service.py` lines 146-148), which escapes `_main_loop` and
  kills the task;
* `loopStartTts l total` — lines 210-216: idle and queue non-empty,
  set `SPEAKING_TTS`, dequeue the head, create the TTS task (the
  finite byte stream has `total` chunks) and suspend in
  `await self._tts_task`;
* `loopResume` — the awaited TTS task has finished.  The task's
  handlers at lines 176-179 swallow both `asyncio.CancelledError` and
  every other exception, so the task always completes normally and
  `await self._tts_task` returns without raising: the `else` branch at
  lines 224-227 runs and sets the state (unconditionally) to `IDLE`;
* `ttsChunk` — one `send_bytes` of a stream chunk (line 170) while the
  connection is registered;
* `ttsComplete` — the stream is exhausted: append the spoken line to
  history (line 172) and finish;
* `ttsCancelled` — the task was cancelled: the `CancelledError`
  delivered at its next suspension point is swallowed at line 176 and
  the task finishes without appending;
* `ttsError` — `self.manager.active_connections[self.mission_id]`
  raises `KeyError` at a send because the connection is not
  registered; the handler at line 178 swallows it and the task
  finishes without appending;
* `broadcastTick` — one iteration of `_broadcast_listeners_loop`
  (lines 234-245) sending the clamped listener value. -/
inductive Step : Sess → Label → Sess → Prop where
  | startSpeech (s : Sess) :
      Step s .startSpeech (startUserSpeech s)
  | stopSpeech (s : Sess) (t : String) :
      Step s (.stopSpeech t) (stopUserSpeech s t)
  | userDialogue (s : Sess) (d : String) :
      Step s (.userDialogue d) (handleUserDialogue s d)
  | stopSession (s : Sess) :
      Step s .stopSession (stopRun s)
  | disconnect (s : Sess) :
      Step s .disconnect { s with connected := false }
  | loopIdleWait (s : Sess) :
      s.loopPC = .sleeping → s.isActive = true → s.state ≠ .IDLE →
      Step s .loopIdleWait s
  | loopExit (s : Sess) :
      s.loopPC = .sleeping → s.isActive = false →
      Step s .loopExit { s with loopPC := .finished }
  | loopStartGen (s : Sess) :
      s.loopPC = .sleeping → s.isActive = true → s.state = .IDLE →
      s.queue = [] →
      Step s .loopStartGen { s with state := .SPEAKING_TTS, loopPC := .generating }
  | loopGenDone (s : Sess) (batch : List DialogueLine) :
      s.loopPC = .generating →
      Step s (.loopGenDone batch)
        { s with queue := s.queue ++ batch, state := .IDLE, loopPC := .sleeping }
  | loopGenFail (s : Sess) :
      s.loopPC = .generating →
      Step s .loopGenFail { s with loopPC := .finished }
  | loopStartTts (s : Sess) (l : DialogueLine) (rest : List DialogueLine) (total : Nat) :
      s.loopPC = .sleeping → s.isActive = true → s.state = .IDLE →
      s.queue = l :: rest →
      Step s (.loopStartTts l total)
        { s with state := .SPEAKING_TTS, queue := rest,
                 ttsTasks := s.ttsTasks ++ [⟨l, total, false⟩],
                 loopPC := .awaitingTts }
  | loopResume (s : Sess) :
      s.loopPC = .awaitingTts → s.ttsTasks = [] →
      Step s .loopResume { s with state := .IDLE, loopPC := .sleeping }
  | ttsChunk (s : Sess) (t : TtsTask) (rest : List TtsTask) (n : Nat) :
      s.ttsTasks = t :: rest → t.cancelRequested = false →
      t.remaining = n + 1 → s.connected = true →
      Step s (.ttsChunk t.line)
        { s with ttsTasks := { t with remaining := n } :: rest }
  | ttsComplete (s : Sess) (t : TtsTask) (rest : List TtsTask) :
      s.ttsTasks = t :: rest → t.cancelRequested = false →
      t.remaining = 0 →
      Step s (.ttsComplete t.line)
        { s with ttsTasks := rest,
                 history := s.history ++ [.host t.line.speaker_name t.line.line] }
  | ttsCancelled (s : Sess) (t : TtsTask) (rest : List TtsTask) :
      s.ttsTasks = t :: rest → t.cancelRequested = true →
      Step s (.ttsCancelled t.line) { s with ttsTasks := rest }
  | ttsError (s : Sess) (t : TtsTask) (rest : List TtsTask) (n : Nat) :
      s.ttsTasks = t :: rest → t.cancelRequested = false →
      t.remaining = n + 1 → s.connected = false →
      Step s (.ttsError t.line) { s with ttsTasks := rest }
  | broadcastTick (s : Sess) :
      s.broadcastAlive = true → s.isActive = true →
      Step s (.broadcastTick (clampedListeners s)) s

/-- A finite execution: `Exec s tr s'` holds when the labelled steps
of `tr` lead from `s` to `s'`. -/
inductive Exec : Sess → List Label → Sess → Prop where
  | nil (s : Sess) : Exec s [] s
  | cons {s₁ s₂ s₃ : Sess} {e : Label} {tr : List Label} :
      Step s₁ e s₂ → Exec s₂ tr s₃ → Exec s₁ (e :: tr) s₃

/-- The session state right after a successful `GameSession.start`:
fresh `__init__` fields (lines 39-58) with both background tasks
created and the connection registered (the endpoint registers the
websocket before constructing the session). -/
def initSession : Sess where
  state := .IDLE
  queue := []
  history := []
  ttsTasks := []
  transcriberActive := false
  isActive := true
  loopPC := .sleeping
  broadcastAlive := true
  connected := true
  speakers := []
  missionContext := ""
  proofSentences := []
  initialListeners := 0
  awakenedListeners := 0

/-- Abstract handle of a `WebSocket` transport. -/
abbrev Transport := Nat

/-- `ConnectionManager` (`game_manager.py` lines 12-27):
`active_connections` is the dict from `mission_id` to its websocket,
modelled as an association list with at most one binding per id. -/
structure ConnectionManager where
  active_connections : List (String × Transport)
deriving DecidableEq, Repr

/-- Dict lookup `self.active_connections[mission_id]` / membership
test `mission_id in self.active_connections`. -/
def ConnectionManager.lookup (cm : ConnectionManager) (mission_id : String) :
    Option Transport :=
  (cm.active_connections.find? fun p => p.1 = mission_id).map Prod.snd

/-- `ConnectionManager.connect` (lines 17-19): accept the websocket
and register it under `mission_id`, replacing any prior binding. -/
def ConnectionManager.connect (cm : ConnectionManager) (ws : Transport)
    (mission_id : String) : ConnectionManager :=
  ⟨(mission_id, ws) :: cm.active_connections.filter fun p => ¬ p.1 = mission_id⟩

/-- `ConnectionManager.disconnect` (lines 21-23): drop the binding if
present. -/
def ConnectionManager.disconnect (cm : ConnectionManager)
    (mission_id : String) : ConnectionManager :=
  ⟨cm.active_connections.filter fun p => ¬ p.1 = mission_id⟩

/-- `ConnectionManager.send_to_client` (lines 25-27): deliver the text
frame to the registered transport, a silent no-op when `mission_id` is
not registered.  The result is the list of `(transport, message)`
deliveries performed; the registry itself is unchanged and the
operation is total (it cannot raise a lookup error). -/
def ConnectionManager.send_to_client (cm : ConnectionManager)
    (message : String) (mission_id : String) : List (Transport × String) :=
  match cm.lookup mission_id with
  | some w => [(w, message)]
  | none => []

/-- Outcome of a Python expression: a value, or an uncaught
`KeyError`. -/
inductive PyResult (α : Type) where
  | ok (a : α)
  | keyError
deriving DecidableEq, Repr

/-- The byte-chunk send performed by `_stream_tts_for_line` at line
170: `await self.manager.active_connections[self.mission_id]
.send_bytes(chunk)`.  It indexes the registry dict directly (it does
not go through `send_to_client`), so an unregistered `mission_id`
raises `KeyError` instead of being a no-op. -/
def sendBytesDirect (cm : ConnectionManager) (mission_id : String)
    (chunk : List Nat) : PyResult (Transport × List Nat) :=
  match cm.lookup mission_id with
  | some w => .ok (w, chunk)
  | none => .keyError

/-- Modelled from the spec: `PropagandaGenerationResult` is imported
from `app.schemas.propaganda` but absent from the source tree; the
orchestrator reads `speakers`, `proof_sentences` and
`initial_listeners` from it (`game_manager.py` lines 68-71). -/
structure PropagandaGenerationResult where
  speakers : List Speaker
  proof_sentences : List String
  initial_listeners : Int
deriving DecidableEq, Repr

/-- Modelled from the spec: `PropagandaMission` (the mission record
returned by `get_propaganda_mission_by_id`) is absent from the source
tree; the orchestrator reads `dialogue_generator_prompt` (empty until
the mission is past its preparatory stage) and `generation_result`. -/
structure PropagandaMission where
  dialogue_generator_prompt : String
  generation_result : PropagandaGenerationResult
deriving DecidableEq, Repr

/-- Python truthiness test of `game_manager.py` line 64:
`not mission or not mission.dialogue_generator_prompt` fails the
mission when it is `None` or its prompt is the empty (falsy) string. -/
def missionReady : Option PropagandaMission → Bool
  | none => false
  | some m => ¬ m.dialogue_generator_prompt = ""

/-- The exact text control frame of `game_manager.py` line 65:
`json.dumps(\x7b"error": "Mission not ready."\x7d)`. -/
def missionNotReadyMessage : String :=
  "\x7b\"error\": \"Mission not ready.\"\x7d"

/-- Result of `GameSession.start`: the control messages it passed to
`ConnectionManager.send_to_client`, the session state when `start`
returns, and whether the `_main_loop` and `_broadcast_listeners_loop`
tasks were created.  `start` only creates the tasks and returns — no
`Step` of the loop is executed by it, which is the non-blocking part
of its contract. -/
structure StartResult where
  controlMessages : List String
  session : Sess
  mainStarted : Bool
  broadcastStarted : Bool
deriving DecidableEq, Repr

/-- `GameSession.start` (lines 60-75).  The mission record fetched
from the store is the parameter `mission`.  When the mission is
missing or not ready, exactly one error control frame is sent through
the registry and the function returns with no task created; otherwise
the session fields are loaded from the mission, `_awakened_listeners`
is reset to 0, and the two background tasks are created. -/
def GameSession.start (mission : Option PropagandaMission) (s : Sess) :
    StartResult :=
  match mission with
  | none => ⟨[missionNotReadyMessage], s, false, false⟩
  | some m =>
    if m.dialogue_generator_prompt = "" then
      ⟨[missionNotReadyMessage], s, false, false⟩
    else
      ⟨[],
       { s with
         speakers := m.generation_result.speakers
         missionContext := m.dialogue_generator_prompt
         proofSentences := m.generation_result.proof_sentences
         initialListeners := m.generation_result.initial_listeners
         awakenedListeners := 0
         loopPC := .sleeping
         broadcastAlive := true },
       true, true⟩

/-- The fresh session produced by `GameSession.__init__` (lines
39-58): idle, empty queue and history, no tasks, transcriber idle,
`_is_active = True`, no loop task yet. -/
def freshSession : Sess where
  state := .IDLE
  queue := []
  history := []
  ttsTasks := []
  transcriberActive := false
  isActive := true
  loopPC := .notStarted
  broadcastAlive := false
  connected := true
  speakers := []
  missionContext := ""
  proofSentences := []
  initialListeners := 0
  awakenedListeners := 0

/-- The dialogue lines recorded in history (the host turns, in
order). -/
def hostLines : List HistEntry → List DialogueLine :=
  List.filterMap fun e =>
    match e with
    | .host sp ln => some ⟨sp, ln⟩
    | .user _ => none

/-- The lines whose TTS task ran to completion (neither cancelled nor
killed by an exception), in order, as recorded by the labels of an
execution. -/
def completedLines : List Label → List DialogueLine :=
  List.filterMap fun e =>
    match e with
    | .ttsComplete l => some l
    | _ => none

theorem hostLines_append (h₁ h₂ : List HistEntry) :
    hostLines (h₁ ++ h₂) = hostLines h₁ ++ hostLines h₂ :=
  List.filterMap_append h₁ h₂ _

def labelCompleted : Label → List DialogueLine
  | .ttsComplete l => [l]
  | _ => []

theorem completedLines_cons (e : Label) (tr : List Label) :
    completedLines (e :: tr) = labelCompleted e ++ completedLines tr := by
  cases e <;> simp [completedLines, labelCompleted]

theorem step_hostLines {s₁ s₂ : Sess} {e : Label} (h : Step s₁ e s₂) :
    hostLines s₂.history = hostLines s₁.history ++ labelCompleted e := by
  cases h <;>
    (try simp only [stopUserSpeech, startUserSpeech, handleUserDialogue, stopRun]) <;>
    (try split_ifs) <;>
    simp [hostLines, hostLines_append, labelCompleted]

theorem exec_hostLines {s₁ : Sess} {tr : List Label} {s₂ : Sess}
    (h : Exec s₁ tr s₂) :
    hostLines s₂.history = hostLines s₁.history ++ completedLines tr := by
  induction h with
  | nil s => simp [completedLines]
  | cons hstep hexec ih =>
    rw [completedLines_cons, ih, step_hostLines hstep, List.append_assoc]

/-- C1: for every execution of the session, a dialogue line's text is
appended to the history if and only if its TTS streaming task ran to
completion without being cancelled (and without an exception): the
host turns of the history are exactly, in order, the lines of the
completed tasks — so a line whose task was cancelled mid-stream never
enters history. -/
theorem c1_history_iff_completed (tr : List Label) (s : Sess)
    (h : Exec initSession tr s) :
    hostLines s.history = completedLines tr := by
  have h2 := exec_hostLines h
  simpa [initSession, hostLines] using h2

def lineA : DialogueLine := ⟨"Host", "Line A"⟩

def lineB : DialogueLine := ⟨"Host", "Line B"⟩

/-- A concrete run for the witness of C1: the first line is spoken to
completion, the second is cancelled mid-stream by `start_speech`. -/
def c1Trace : List Label :=
  [.loopStartGen, .loopGenDone [lineA, lineB],
   .loopStartTts lineA 1, .ttsChunk lineA, .ttsComplete lineA, .loopResume,
   .loopStartTts lineB 3, .ttsChunk lineB, .startSpeech, .ttsCancelled lineB]

/-- The session state after `c1Trace`. -/
def c1Final : Sess :=
  { state := .LISTENING_TO_USER
    queue := []
    history := [.host "Host" "Line A"]
    ttsTasks := []
    transcriberActive := true
    isActive := true
    loopPC := .awaitingTts
    broadcastAlive := true
    connected := true
    speakers := []
    missionContext := ""
    proofSentences := []
    initialListeners := 0
    awakenedListeners := 0 }

theorem c1Trace_exec : Exec initSession c1Trace c1Final :=
  Exec.cons (Step.loopStartGen _ rfl rfl rfl rfl)
  (Exec.cons (Step.loopGenDone _ [lineA, lineB] rfl)
  (Exec.cons (Step.loopStartTts _ lineA [lineB] 1 rfl rfl rfl rfl)
  (Exec.cons (Step.ttsChunk _ ⟨lineA, 1, false⟩ [] 0 rfl rfl rfl rfl)
  (Exec.cons (Step.ttsComplete _ ⟨lineA, 0, false⟩ [] rfl rfl rfl)
  (Exec.cons (Step.loopResume _ rfl rfl)
  (Exec.cons (Step.loopStartTts _ lineB [] 3 rfl rfl rfl rfl)
  (Exec.cons (Step.ttsChunk _ ⟨lineB, 3, false⟩ [] 2 rfl rfl rfl rfl)
  (Exec.cons (Step.startSpeech _)
  (Exec.cons (Step.ttsCancelled _ ⟨lineB, 2, true⟩ [] rfl rfl)
  (Exec.nil _))))))))))

/-- Witness for C1 on the concrete run: "Line A" completed and is the
single history entry; the cancelled "Line B" is absent. -/
theorem c1_history_iff_completed_witness :
    hostLines c1Final.history = completedLines c1Trace :=
  c1_history_iff_completed c1Trace c1Final c1Trace_exec

/-- Number of active transcription tasks: the session owns exactly
one `LiveTranscription` instance (`game_manager.py` line 58), active
or not. -/
def transcriberTaskCount (s : Sess) : Nat :=
  if s.transcriberActive then 1 else 0

/-- Single-flight invariant: at most one alive TTS task, and an alive
TTS task exists only while the main loop is suspended in
`await self._tts_task` (which is what prevents a second
`create_task`). -/
def SingleFlightInv (s : Sess) : Prop :=
  s.ttsTasks.length ≤ 1 ∧ (s.loopPC = .awaitingTts ∨ s.ttsTasks = [])

theorem singleFlight_step {s₁ s₂ : Sess} {e : Label} (h : Step s₁ e s₂)
    (hinv : SingleFlightInv s₁) : SingleFlightInv s₂ := by
  obtain ⟨h1, h2⟩ := hinv
  cases h <;>
    (try simp only [startUserSpeech, stopUserSpeech, handleUserDialogue, stopRun]) <;>
    (try split_ifs) <;>
    simp_all [SingleFlightInv, markCancelled]

theorem singleFlight_exec {s₁ : Sess} {tr : List Label} {s₂ : Sess}
    (h : Exec s₁ tr s₂) (hinv : SingleFlightInv s₁) : SingleFlightInv s₂ := by
  induction h with
  | nil s => exact hinv
  | cons hstep hexec ih => exact ih (singleFlight_step hstep hinv)

/-- C2: in every execution of the session, at every instant at most
one TTS (synthesis) task and at most one transcription task are
alive. -/
theorem c2_single_flight (tr : List Label) (s : Sess)
    (h : Exec initSession tr s) :
    s.ttsTasks.length ≤ 1 ∧ transcriberTaskCount s ≤ 1 := by
  have hs := singleFlight_exec h (by simp [SingleFlightInv, initSession])
  refine ⟨hs.1, ?_⟩
  unfold transcriberTaskCount
  split <;> simp

/-- Witness for C2 on the concrete run `c1Trace`. -/
theorem c2_single_flight_witness :
    c1Final.ttsTasks.length ≤ 1 ∧ transcriberTaskCount c1Final ≤ 1 :=
  c2_single_flight c1Trace c1Final c1Trace_exec

/-- The race of `_main_loop`'s unconditional state writes: the user
starts speaking while the loop is generating; `loopGenDone` (line 208)
then forces the state from `LISTENING_TO_USER` back to `IDLE`, the
loop dequeues the freshly generated line and starts its TTS task while
the transcriber is live; `stop_speech` then sets `IDLE` without
cancelling the task, and a second `start_speech` finds the state not
`SPEAKING_TTS` (line 102) and therefore does not cancel it either. -/
def c3Trace : List Label :=
  [.loopStartGen, .startSpeech, .loopGenDone [lineA],
   .loopStartTts lineA 2, .stopSpeech "I know the truth",
   .startSpeech, .ttsChunk lineA]

/-- The session state after `c3Trace`: listening to the user while a
live, not-cancel-requested TTS task is still streaming. -/
def c3Final : Sess :=
  { state := .LISTENING_TO_USER
    queue := []
    history := [.user "I know the truth"]
    ttsTasks := [⟨lineA, 1, false⟩]
    transcriberActive := true
    isActive := true
    loopPC := .awaitingTts
    broadcastAlive := true
    connected := true
    speakers := []
    missionContext := ""
    proofSentences := []
    initialListeners := 0
    awakenedListeners := 0 }

theorem c3Trace_exec : Exec initSession c3Trace c3Final :=
  Exec.cons (Step.loopStartGen _ rfl rfl rfl rfl)
  (Exec.cons (Step.startSpeech _)
  (Exec.cons (Step.loopGenDone _ [lineA] rfl)
  (Exec.cons (Step.loopStartTts _ lineA [] 2 rfl rfl rfl rfl)
  (Exec.cons (Step.stopSpeech _ "I know the truth")
  (Exec.cons (Step.startSpeech _)
  (Exec.cons (Step.ttsChunk _ ⟨lineA, 2, false⟩ [] 1 rfl rfl rfl rfl)
  (Exec.nil _)))))))

/-- C3 fails on the code: a reachable state has `state =
LISTENING_TO_USER` with an alive synthesis task that is still
streaming (its cancel flag is unset and it can still send a chunk),
because a dialogue-generation call that completed after `start_speech`
re-enqueued lines and forced the state back to `IDLE`, letting the
loop start a TTS task during live listening. -/
theorem c3_listening_invariant_violated :
    Exec initSession c3Trace c3Final ∧
    c3Final.state = .LISTENING_TO_USER ∧
    c3Final.ttsTasks = [⟨lineA, 1, false⟩] ∧
    c3Final.transcriberActive = true ∧
    Step c3Final (.ttsChunk lineA) { c3Final with ttsTasks := [⟨lineA, 0, false⟩] } :=
  ⟨c3Trace_exec, rfl, rfl, rfl,
   Step.ttsChunk _ ⟨lineA, 1, false⟩ [] 0 rfl rfl rfl rfl⟩

/-- Same race, continued to a violation of P4: `lineA` is enqueued
(index 2) before the free-text `user_dialogue` event (index 6), yet
its synthesis continues after the event (index 7) and the line is
appended to history (index 8) — the event found `state = IDLE`, so
line 142 did not cancel the running task. -/
def c4Trace : List Label :=
  [.loopStartGen, .startSpeech, .loopGenDone [lineA, lineB],
   .loopStartTts lineA 2, .ttsChunk lineA, .stopSpeech "I know the truth",
   .userDialogue "you are lying", .ttsChunk lineA, .ttsComplete lineA]

/-- The session state after `c4Trace`. -/
def c4Final : Sess :=
  { state := .IDLE
    queue := []
    history := [.user "I know the truth", .user "you are lying",
                .host "Host" "Line A"]
    ttsTasks := []
    transcriberActive := false
    isActive := true
    loopPC := .awaitingTts
    broadcastAlive := true
    connected := true
    speakers := []
    missionContext := ""
    proofSentences := []
    initialListeners := 0
    awakenedListeners := 0 }

theorem c4Trace_exec : Exec initSession c4Trace c4Final :=
  Exec.cons (Step.loopStartGen _ rfl rfl rfl rfl)
  (Exec.cons (Step.startSpeech _)
  (Exec.cons (Step.loopGenDone _ [lineA, lineB] rfl)
  (Exec.cons (Step.loopStartTts _ lineA [lineB] 2 rfl rfl rfl rfl)
  (Exec.cons (Step.ttsChunk _ ⟨lineA, 2, false⟩ [] 1 rfl rfl rfl rfl)
  (Exec.cons (Step.stopSpeech _ "I know the truth")
  (Exec.cons (Step.userDialogue _ "you are lying")
  (Exec.cons (Step.ttsChunk _ ⟨lineA, 1, false⟩ [] 0 rfl rfl rfl rfl)
  (Exec.cons (Step.ttsComplete _ ⟨lineA, 0, false⟩ [] rfl rfl rfl)
  (Exec.nil _)))))))))

/-- C4 fails on the code: in `c4Trace` the line `lineA` was enqueued
(label index 2) strictly before the free-text `user_dialogue` event
(label index 6), yet a chunk of it is synthesized after the event
(index 7) and it completes and enters history after the event
(index 8): a stale line is spoken after the interrupt. -/
theorem c4_stale_line_spoken_after_interrupt :
    Exec initSession c4Trace c4Final ∧
    c4Trace.get? 2 = some (.loopGenDone [lineA, lineB]) ∧
    c4Trace.get? 6 = some (.userDialogue "you are lying") ∧
    c4Trace.get? 7 = some (.ttsChunk lineA) ∧
    c4Trace.get? 8 = some (.ttsComplete lineA) ∧
    c4Final.history =
      [.user "I know the truth", .user "you are lying", .host "Host" "Line A"] :=
  ⟨c4Trace_exec, rfl, rfl, rfl, rfl, rfl⟩

/-- The connection is removed from the registry mid-stream; the send
at line 170 raises `KeyError`, which `_stream_tts_for_line` swallows
at line 178, so the main loop resumes normally and starts a further
synthesis call for the next line. -/
def c5Trace : List Label :=
  [.loopStartGen, .loopGenDone [lineA, lineB], .loopStartTts lineA 3,
   .ttsChunk lineA, .disconnect, .ttsError lineA, .loopResume,
   .loopStartTts lineB 2]

/-- The state just before the failing send of `c5Trace` (after
`disconnect`). -/
def c5Mid : Sess :=
  { state := .SPEAKING_TTS
    queue := [lineB]
    history := []
    ttsTasks := [⟨lineA, 2, false⟩]
    transcriberActive := false
    isActive := true
    loopPC := .awaitingTts
    broadcastAlive := true
    connected := false
    speakers := []
    missionContext := ""
    proofSentences := []
    initialListeners := 0
    awakenedListeners := 0 }

/-- The session state after `c5Trace`: still active, with a fresh TTS
task for `lineB`. -/
def c5Final : Sess :=
  { state := .SPEAKING_TTS
    queue := []
    history := []
    ttsTasks := [⟨lineB, 2, false⟩]
    transcriberActive := false
    isActive := true
    loopPC := .awaitingTts
    broadcastAlive := true
    connected := false
    speakers := []
    missionContext := ""
    proofSentences := []
    initialListeners := 0
    awakenedListeners := 0 }

theorem c5Trace_exec : Exec initSession c5Trace c5Final :=
  Exec.cons (Step.loopStartGen _ rfl rfl rfl rfl)
  (Exec.cons (Step.loopGenDone _ [lineA, lineB] rfl)
  (Exec.cons (Step.loopStartTts _ lineA [lineB] 3 rfl rfl rfl rfl)
  (Exec.cons (Step.ttsChunk _ ⟨lineA, 3, false⟩ [] 2 rfl rfl rfl rfl)
  (Exec.cons (Step.disconnect _)
  (Exec.cons (Step.ttsError _ ⟨lineA, 2, false⟩ [] 1 rfl rfl rfl rfl)
  (Exec.cons (Step.loopResume _ rfl rfl)
  (Exec.cons (Step.loopStartTts _ lineB [] 2 rfl rfl rfl rfl)
  (Exec.nil _))))))))

/-- C5 fails on the code: after the registry reports the connection
gone at a send (label index 5, the `KeyError` of line 170), the
orchestrator does not stop itself — the session is still active, its
main loop is still running, and it performs a further synthesis call
(label index 7 creates the TTS task for `lineB`). -/
theorem c5_gone_connection_does_not_stop_session :
    Exec initSession c5Trace c5Final ∧
    c5Trace.get? 5 = some (.ttsError lineA) ∧
    c5Trace.get? 7 = some (.loopStartTts lineB 2) ∧
    c5Final.isActive = true ∧
    ¬ c5Final.loopPC = .finished ∧
    c5Final.ttsTasks = [⟨lineB, 2, false⟩] :=
  ⟨c5Trace_exec, rfl, rfl, rfl, by decide, rfl⟩

/-- C5 amended: a send to a gone connection only aborts the current
line's synthesis task — the task finishes without appending the line
to history — while the session itself is not stopped: `_is_active`,
the main-loop position, the queue and the transcriber are unchanged,
so further synthesis calls may follow (as `c5Trace` shows). -/
theorem c5_amended_gone_send_aborts_line_only (s s' : Sess) (l : DialogueLine)
    (h : Step s (.ttsError l) s') :
    s'.history = s.history ∧ s'.isActive = s.isActive ∧
    s'.loopPC = s.loopPC ∧ s'.state = s.state ∧
    s'.queue = s.queue ∧ s'.transcriberActive = s.transcriberActive ∧
    s'.ttsTasks = s.ttsTasks.tail := by
  cases h
  simp_all

/-- Witness for the amended C5 at the failing send of `c5Trace`. -/
theorem c5_amended_gone_send_aborts_line_only_witness :
    ({ c5Mid with ttsTasks := [] } : Sess).history = c5Mid.history ∧
    ({ c5Mid with ttsTasks := [] } : Sess).isActive = c5Mid.isActive ∧
    ({ c5Mid with ttsTasks := [] } : Sess).loopPC = c5Mid.loopPC ∧
    ({ c5Mid with ttsTasks := [] } : Sess).state = c5Mid.state ∧
    ({ c5Mid with ttsTasks := [] } : Sess).queue = c5Mid.queue ∧
    ({ c5Mid with ttsTasks := [] } : Sess).transcriberActive = c5Mid.transcriberActive ∧
    ({ c5Mid with ttsTasks := [] } : Sess).ttsTasks = c5Mid.ttsTasks.tail :=
  c5_amended_gone_send_aborts_line_only c5Mid _ lineA
    (Step.ttsError c5Mid ⟨lineA, 2, false⟩ [] 1 rfl rfl rfl rfl)

/-- C6 fails as stated: the byte-chunk send used during synthesis
streaming is not a registry no-op — on an unregistered id the direct
dict index of line 170 raises `KeyError`. -/
theorem c6_byte_send_raises_when_unregistered :
    sendBytesDirect ⟨[]⟩ "m1" [0, 1] = .keyError := rfl

/-- C6 amended: for an unregistered id, the registry's text send
(`send_to_client`) is a silent no-op that delivers nothing and cannot
raise, while the byte send actually performed by the code
(`active_connections[mission_id].send_bytes`) raises `KeyError`
(caught further up by `_stream_tts_for_line`). -/
theorem c6_unregistered_send_behaviour (cm : ConnectionManager)
    (mid msg : String) (chunk : List Nat) (h : cm.lookup mid = none) :
    cm.send_to_client msg mid = [] ∧
    sendBytesDirect cm mid chunk = .keyError := by
  simp [ConnectionManager.send_to_client, sendBytesDirect, h]

/-- Witness for the amended C6 on the empty registry. -/
theorem c6_unregistered_send_behaviour_witness :
    ConnectionManager.send_to_client ⟨[]⟩ "hello" "m1" = [] ∧
    sendBytesDirect ⟨[]⟩ "m1" [7] = .keyError :=
  c6_unregistered_send_behaviour ⟨[]⟩ "m1" "hello" [7] rfl

/-- C7: `stop()` is idempotent — a second call leaves the state it
produced unchanged — and upon return no task owned by the session is
alive (`ttsTasks = []`, the main loop and the broadcast loop are
finished) and the transcriber is stopped.  `stopRun` is a total
function: every exception the cancelled tasks can deliver is an
`asyncio.CancelledError` swallowed inside `stop` (lines 85-88), so
`stop` never raises.  It may be taken from any state, including one
with the main loop and a TTS task running concurrently
(`Step.stopSession` has no precondition). -/
theorem c7_stop_idempotent (s : Sess) :
    stopRun (stopRun s) = stopRun s ∧
    (stopRun s).ttsTasks = [] ∧
    (stopRun s).loopPC = .finished ∧
    (stopRun s).broadcastAlive = false ∧
    (stopRun s).transcriberActive = false ∧
    Step s .stopSession (stopRun s) :=
  ⟨rfl, rfl, rfl, rfl, rfl, Step.stopSession s⟩

/-- C8: `start()` fails fast exactly when the mission is missing or
its dialogue-generation prompt is empty — then it passes exactly one
error control message (`missionNotReadyMessage`) to the registry and
creates neither the main-loop nor the broadcast task, leaving the loop
not started; when the mission is ready it sends no error, creates both
background tasks and returns with the loop merely created (at its
first suspension point), never executing a loop step itself. -/
theorem c8_start_contract (mission : Option PropagandaMission) (s : Sess) :
    (GameSession.start mission s).mainStarted = missionReady mission ∧
    (GameSession.start mission s).broadcastStarted = missionReady mission ∧
    (GameSession.start mission s).controlMessages =
      (if missionReady mission then [] else [missionNotReadyMessage]) ∧
    (GameSession.start mission s).session.loopPC =
      (if missionReady mission then .sleeping else s.loopPC) := by
  cases mission with
  | none => simp [GameSession.start, missionReady]
  | some m =>
    by_cases hp : m.dialogue_generator_prompt = "" <;>
      simp [GameSession.start, missionReady, hp]

/-- C9: every awakened-listener value the broadcast loop sends lies in
the closed interval `[0, initialListeners]`, whatever the sign or
magnitude of the internal accumulator. -/
theorem c9_listener_clamp (s s' : Sess) (v : Int)
    (hstep : Step s (.broadcastTick v) s') (hinit : 0 ≤ s.initialListeners) :
    0 ≤ v ∧ v ≤ s.initialListeners := by
  cases hstep
  refine ⟨le_max_left 0 _, ?_⟩
  simp only [clampedListeners]
  omega

/-- A session whose accumulator went far negative. -/
def c9Sess : Sess :=
  { initSession with initialListeners := 100, awakenedListeners := -250 }

/-- Witness for C9: with `initial_listeners = 100` and accumulator
`-250`, the broadcast value is `0`, inside `[0, 100]`. -/
theorem c9_listener_clamp_witness : 0 ≤ (0 : Int) ∧ (0 : Int) ≤ (100 : Int) :=
  c9_listener_clamp c9Sess c9Sess 0 (Step.broadcastTick c9Sess rfl rfl) (by decide)

/-- C10: `handle_user_dialogue` acts identically in every state —
also in `LISTENING_TO_USER`: it unconditionally empties the pending
queue, appends the user's text to history, sets the state to `IDLE`,
and leaves the live transcriber's active flag untouched, so a
free-text interrupt during live listening leaves the transcriber
running while the state is already `IDLE`. -/
theorem c10_handle_user_dialogue_uniform (s : Sess) (d : String) :
    (handleUserDialogue s d).queue = [] ∧
    (handleUserDialogue s d).history = s.history ++ [.user d] ∧
    (handleUserDialogue s d).state = .IDLE ∧
    (handleUserDialogue s d).transcriberActive = s.transcriberActive := by
  simp [handleUserDialogue]
